import Mathlib

/-!
Shallow embedding of `ai_breakup_recovery_agent.py` (Heart Healer – Breakup
Recovery Studio).  The script is a Streamlit page whose submit handler
sequentially invokes four prompt-configured model personas.  We model the
handler as a pure function from an environment (credential, initialization
outcome, and the outcome of each external model call) and the user inputs
(narrative text and uploaded files) to the trace of observable events the
handler performs, in source order: model invocations, rendered panels,
warnings and error messages.  Temporary-file staging (`process_images`) is
modelled with an explicit file-system map from paths to byte contents.
-/

namespace HeartHealer

/-- Uploaded Streamlit file: a name, raw byte contents, and an
environment-determined flag telling whether opening/writing its temporary
copy raises (the failure is caught per file in `process_images`).  The
Streamlit uploader's `None` and `[]` are both modelled as the empty list,
since `if not files` treats them identically. -/
structure UploadedFile where
  name : String
  content : List Nat
  stageFails : Bool
deriving DecidableEq, Repr

/-- Temporary file system: a map from absolute paths to byte contents. -/
def FS : Type := String → Option (List Nat)

/-- Model of `tempfile.gettempdir()`: an abstract fixed directory. -/
def temp_dir : String := "/tmp"

/-- Path of a staged attachment: `os.path.join(temp_dir, f"heart_healer_" + name)`. -/
def stagePath (name : String) : String := temp_dir ++ "/heart_healer_" ++ name

/-- Model of `open(temp_path, "wb")` followed by `f.write(...)`: overwrite the
path with the new contents, leaving every other path unchanged. -/
def writeTemp (fs : FS) (f : UploadedFile) : FS :=
  fun q => if q = stagePath f.name then some f.content else fs q

/-- Result of `process_images`: the updated temporary file system, the Agno
image list (modelled by staged file paths, in upload order), and the
error-log lines emitted for files whose staging raised. -/
structure StageResult where
  fs : FS
  images : List String
  logs : List String

/-- Model of `process_images`: for each file in order, try to write its bytes
to the staged temp path and append an image wrapping that path; a failure is
caught, logged (`logger.error(f"Error processing image ...")`, whose
exception text we abstract away) and the file skipped.  The function itself
never raises: it is total by construction, mirroring the per-file
`try/except ... continue`. -/
def process_images : FS → List UploadedFile → StageResult
  | fs, [] => ⟨fs, [], []⟩
  | fs, f :: rest =>
    if f.stageFails then
      let r := process_images fs rest
      ⟨r.fs, r.images, ("Error processing image " ++ f.name) :: r.logs⟩
    else
      let r := process_images (writeTemp fs f) rest
      ⟨r.fs, stagePath f.name :: r.images, r.logs⟩

/-- Agent configuration as built by `initialize_agents`: a name, a fixed
instruction list, whether the agent is given the DuckDuckGo web-search tool,
and the `markdown` flag.  (The shared `OpenAIChat(id="gpt-4o-mini")` model
handle carries no per-agent data and is omitted.) -/
structure Agent where
  name : String
  instructions : List String
  hasWebSearchTool : Bool
  markdown : Bool
deriving DecidableEq, Repr

/-- The first persona built by `initialize_agents` (emotional support). -/
def therapist_agent : Agent :=
  ⟨"Supportive Listener",
   ["You are a warm, empathetic breakup-support companion who:",
    "1. Listens deeply and validates the user's emotions",
    "2. Uses gentle, light humour where appropriate",
    "3. Normalizes their feelings and shares relatable breakup perspectives",
    "4. Offers reassuring, encouraging words and hope",
    "5. Can use both the text and screenshots to understand emotional context",
    "Always be kind, non-judgmental, and emotionally safe And limit the answer in 70 Words"],
   false, true⟩

/-- The second persona built by `initialize_agents` (closure writing). -/
def closure_agent : Agent :=
  ⟨"Closure Coach",
   ["You help the user write for emotional closure, not to actually send.",
    "1. Draft unsent messages to their ex to release emotions",
    "2. Allow honest, raw but non-abusive expression",
    "3. Organize content with simple headings or sections",
    "4. Gently steer toward self-respect and letting go",
    "Focus on emotional release and healthy closure  And limit the answer in 50 Words."],
   false, true⟩

/-- The third persona built by `initialize_agents` (routine planning). -/
def routine_planner_agent : Agent :=
  ⟨"Routine Architect",
   ["You design short, practical breakup-recovery routines.",
    "1. Create a 7-day healing plan with daily tasks",
    "2. Mix self-care, movement, journaling, and social connection",
    "3. Add ideas for digital / social media boundaries",
    "4. Suggest mood-lifting playlist themes or song ideas",
    "Keep it simple, doable, and encouraging.  And limit the answer in 80 Words"],
   false, true⟩

/-- The fourth persona built by `initialize_agents` (reality check); the only
one constructed with `tools=[DuckDuckGoTools()]`. -/
def brutal_honesty_agent : Agent :=
  ⟨"Reality Check Partner",
   ["You give honest but respectful perspective about the breakup.",
    "1. Explain what likely went wrong in clear language",
    "2. Avoid sugar-coating, but never insult the user",
    "3. Highlight patterns to avoid in the future",
    "4. List reasons why moving on is good for them",
    "Be direct, but always constructive and growth-focused.  And limit the answer in 50 Words"],
   true, true⟩

/-- Observable Streamlit-side events of one submit, in source order. -/
inductive Event where
  | header : String → Event
  | render : String → String → Event
  | warn : String → Event
  | error : String → Event
  | modelCall : Agent → String → List String → Event
deriving DecidableEq, Repr

/-- Model of `initialize_agents(api_key)`: setup either succeeds, returning
the four fixed agents, or raises with message `e`, in which case the
`except` branch shows `st.error(f"Error initializing agents: " + e)` and
returns `(None, None, None, None)`.  The environment's `initError` field
records which case occurs (`some e` = the try block raised with text `e`). -/
def initialize_agents (initError : Option String) :
    (Option Agent × Option Agent × Option Agent × Option Agent) × List Event :=
  match initError with
  | some e =>
      ((none, none, none, none), [Event.error ("Error initializing agents: " ++ e)])
  | none =>
      ((some therapist_agent, some closure_agent, some routine_planner_agent,
        some brutal_honesty_agent), [])

/-- Truthiness check `all([therapist_agent, closure_agent, routine_planner_agent,
brutal_honesty_agent])`: agent objects are truthy and `None` is falsy. -/
def allPresent (a : Option Agent × Option Agent × Option Agent × Option Agent) : Bool :=
  a.1.isSome && a.2.1.isSome && a.2.2.1.isSome && a.2.2.2.isSome

/-- Fixed prefix of the `therapist_prompt` f-string (before `{user_input}`). -/
def therapist_pre : String :=
  "\nYou are helping someone who is going through a breakup.\n\nUser's message:\n"

/-- Fixed suffix of the `therapist_prompt` f-string (after `{user_input}`). -/
def therapist_post : String :=
  "\n\nUsing their words (and any images, if provided), please:\n1. Validate what they are feeling without minimizing it.\n2. Normalize their reaction (why it makes sense to feel this way).\n3. Offer a few comforting, human-sounding reflections.\n4. Give 2–3 gentle suggestions for what they can do *today* to feel 1% better.\nKeep the tone warm, conversational, and kind but in limited words.\n"

/-- The `therapist_prompt` f-string: the narrative interpolated verbatim at
its placeholder. -/
def therapist_prompt (user_input : String) : String :=
  therapist_pre ++ user_input ++ therapist_post

/-- Fixed prefix of the `closure_prompt` f-string (before `{user_input}`). -/
def closure_pre : String :=
  "\nHelp the user process their breakup by writing for closure.\n\nUser's feelings / story:\n"

/-- Fixed suffix of the `closure_prompt` f-string (after `{user_input}`). -/
def closure_post : String :=
  "\n\nPlease create:\n1. One unsent message to their ex (for their eyes only, not to actually send).\n2. A short journal prompt to help them explore what they learned.\n3. A brief self-compassion note they can read to themselves.\n\nTone: honest, respectful, and focused on self-worth but in limited words.\n"

/-- The `closure_prompt` f-string. -/
def closure_prompt (user_input : String) : String :=
  closure_pre ++ user_input ++ closure_post

/-- Fixed prefix of the `routine_prompt` f-string (before `{user_input}`). -/
def routine_pre : String :=
  "\nDesign a simple 7-day breakup healing plan.\n\nContext about the user:\n"

/-- Fixed suffix of the `routine_prompt` f-string (after `{user_input}`). -/
def routine_post : String :=
  "\n\nInclude for each day:\n1. One small self-care or body movement activity.\n2. One reflection or journaling idea.\n3. One optional social connection / reaching out action.\n4. Any digital / social media guideline if relevant.\n\nKeep it realistic for someone who has low energy and is emotionally tired but in limited words.\n"

/-- The `routine_prompt` f-string. -/
def routine_prompt (user_input : String) : String :=
  routine_pre ++ user_input ++ routine_post

/-- Fixed prefix of the `honesty_prompt` f-string (before `{user_input}`). -/
def honesty_pre : String :=
  "\nProvide an honest but compassionate perspective on this breakup.\n\nUser's situation:\n"

/-- Fixed suffix of the `honesty_prompt` f-string (after `{user_input}`). -/
def honesty_post : String :=
  "\n\nPlease cover:\n1. A clear, neutral analysis of what might have gone wrong.\n2. Patterns or red flags they might want to notice for the future.\n3. Reasons this breakup might secretly be protecting or freeing them.\n4. 3–5 concrete growth steps they can focus on over the next month.\n\nBe direct but never cruel. The goal is clarity + growth, not blame but in limited words.\n"

/-- The `honesty_prompt` f-string. -/
def honesty_prompt (user_input : String) : String :=
  honesty_pre ++ user_input ++ honesty_post

/-- Warning shown when the API key field is empty. -/
def apiKeyWarning : String := "Please enter your OpenAI API key in the sidebar first."

/-- Warning shown when neither narrative nor attachments were supplied. -/
def emptyInputWarning : String :=
  "Please share your feelings or upload at least one screenshot to get a recovery plan."

/-- Error shown when the `all([...])` agent check fails. -/
def initFailedError : String :=
  "Failed to initialize agents. Please double-check your OpenAI API key."

/-- Generic error shown by the `except` branch around the persona calls. -/
def analysisError : String :=
  "An error occurred while generating your recovery plan. Please try again."

/-- Header rendered by `st.header` before the first persona call. -/
def journeyHeader : String := "🌈 Your Personalized Recovery Journey"

/-- Environment of one submit: the session-state API key text, whether agent
setup raises (and with what message), and the outcome of each of the four
external model calls (`some text` = the call returns `text`; `none` = the
call raises, to be caught by the surrounding `except`). -/
structure Env where
  api_key_input : String
  initError : Option String
  callResult : Fin 4 → Option String

/-- The body of the `try` block: a strict linear sequence of the four persona
calls, each rendering its subheader and response content on success; the
first raising call ends the sequence with the one generic error message. -/
def personaSequence (a1 a2 a3 a4 : Agent) (cr : Fin 4 → Option String)
    (user_input : String) (imgs : List String) : List Event :=
  Event.modelCall a1 (therapist_prompt user_input) imgs ::
  match cr 0 with
  | none => [Event.error analysisError]
  | some r1 =>
    Event.render "🤗 Emotional First Aid" r1 ::
    Event.modelCall a2 (closure_prompt user_input) imgs ::
    match cr 1 with
    | none => [Event.error analysisError]
    | some r2 =>
      Event.render "✍️ Letters for Closure (Not to Send)" r2 ::
      Event.modelCall a3 (routine_prompt user_input) imgs ::
      match cr 2 with
      | none => [Event.error analysisError]
      | some r3 =>
        Event.render "📅 7-Day Healing Gameplan" r3 ::
        Event.modelCall a4 (honesty_prompt user_input) imgs ::
        match cr 3 with
        | none => [Event.error analysisError]
        | some r4 => [Event.render "💡 Reality Check & Growth Notes" r4]

/-- Model of the submit handler (`if st.button(...)` block): check the key,
initialize agents, check the `all([...])` guard, check the empty-input
guard, then stage attachments and run the four persona calls inside the
`try`.  Returns the final temporary file system and the event trace. -/
def runSubmit (env : Env) (fs : FS) (user_input : String)
    (uploaded_files : List UploadedFile) : FS × List Event :=
  if env.api_key_input = "" then
    (fs, [Event.warn apiKeyWarning])
  else
    match initialize_agents env.initError with
    | ((some a1, some a2, some a3, some a4), initEvents) =>
        if user_input ≠ "" ∨ uploaded_files ≠ [] then
          let staged := process_images fs uploaded_files
          (staged.fs,
           initEvents ++ Event.header journeyHeader ::
             personaSequence a1 a2 a3 a4 env.callResult user_input staged.images)
        else
          (fs, initEvents ++ [Event.warn emptyInputWarning])
    | (_, initEvents) =>
        (fs, initEvents ++ [Event.error initFailedError])

/-- Model-call events of a trace, in order: persona configuration, prompt,
image list. -/
def modelCalls : List Event → List (Agent × String × List String)
  | [] => []
  | Event.modelCall a p i :: es => (a, p, i) :: modelCalls es
  | Event.header _ :: es => modelCalls es
  | Event.render _ _ :: es => modelCalls es
  | Event.warn _ :: es => modelCalls es
  | Event.error _ :: es => modelCalls es

/-- Rendered result panels of a trace, in order: subheader and Markdown body. -/
def renders : List Event → List (String × String)
  | [] => []
  | Event.render h t :: es => (h, t) :: renders es
  | Event.header _ :: es => renders es
  | Event.modelCall _ _ _ :: es => renders es
  | Event.warn _ :: es => renders es
  | Event.error _ :: es => renders es

/-- Warning messages of a trace, in order. -/
def warns : List Event → List String
  | [] => []
  | Event.warn w :: es => w :: warns es
  | Event.header _ :: es => warns es
  | Event.render _ _ :: es => warns es
  | Event.modelCall _ _ _ :: es => warns es
  | Event.error _ :: es => warns es

/-- Error messages of a trace, in order. -/
def errors : List Event → List String
  | [] => []
  | Event.error e :: es => e :: errors es
  | Event.header _ :: es => errors es
  | Event.render _ _ :: es => errors es
  | Event.modelCall _ _ _ :: es => errors es
  | Event.warn _ :: es => errors es

/-- The four persona calls of a fully successful session, in fixed order,
each with its persona-specific prompt and the shared image list. -/
def expectedCalls (user_input : String) (imgs : List String) :
    List (Agent × String × List String) :=
  [(therapist_agent, therapist_prompt user_input, imgs),
   (closure_agent, closure_prompt user_input, imgs),
   (routine_planner_agent, routine_prompt user_input, imgs),
   (brutal_honesty_agent, honesty_prompt user_input, imgs)]

/-- Number of model calls actually issued before the sequence ends, as a
function of the per-call outcomes alone. -/
def numCalls (cr : Fin 4 → Option String) : Nat :=
  match cr 0 with
  | none => 1
  | some _ =>
    match cr 1 with
    | none => 2
    | some _ =>
      match cr 2 with
      | none => 3
      | some _ => 4

/-- C4: if the credential (API key) is absent, zero model calls occur
regardless of input content, and the user is warned to enter a key. -/
theorem missing_key_no_calls (env : Env) (fs : FS) (u : String)
    (files : List UploadedFile) (hk : env.api_key_input = "") :
    modelCalls (runSubmit env fs u files).2 = [] ∧
    (runSubmit env fs u files).2 = [Event.warn apiKeyWarning] := by
  simp [runSubmit, hk, modelCalls]

/-- C4 witness at a concrete session: empty key, non-empty narrative. -/
theorem missing_key_no_calls_witness :
    modelCalls (runSubmit ⟨"", none, fun _ => some "ok"⟩ (fun _ => none) "hello" []).2 = [] ∧
    (runSubmit ⟨"", none, fun _ => some "ok"⟩ (fun _ => none) "hello" []).2 =
      [Event.warn apiKeyWarning] :=
  missing_key_no_calls ⟨"", none, fun _ => some "ok"⟩ (fun _ => none) "hello" [] rfl

/-- C5: whenever `initialize_agents` fails (the setup raised with message
`e`), the initialization error and the configuration error are reported and
no model call is made, regardless of the inputs. -/
theorem init_failure_fails_fast (env : Env) (fs : FS) (u : String)
    (files : List UploadedFile) (e : String) (hk : env.api_key_input ≠ "")
    (hi : env.initError = some e) :
    modelCalls (runSubmit env fs u files).2 = [] ∧
    errors (runSubmit env fs u files).2 =
      ["Error initializing agents: " ++ e, initFailedError] := by
  simp [runSubmit, hk, hi, initialize_agents, modelCalls, errors]

/-- C5 witness at a concrete session with failing agent setup. -/
theorem init_failure_fails_fast_witness :
    modelCalls (runSubmit ⟨"sk", some "bad key", fun _ => some "ok"⟩
        (fun _ => none) "hello" []).2 = [] ∧
    errors (runSubmit ⟨"sk", some "bad key", fun _ => some "ok"⟩
        (fun _ => none) "hello" []).2 =
      ["Error initializing agents: " ++ "bad key", initFailedError] :=
  init_failure_fails_fast ⟨"sk", some "bad key", fun _ => some "ok"⟩
    (fun _ => none) "hello" [] "bad key" (by decide) rfl

/-- C7: attachment staging is idempotent per file name: staging a file twice
leaves the same temporary file system as staging it once (same staged
content, same image list), the staged path holds exactly the uploaded bytes
(overwrite semantics), and every other path is untouched.  `process_images`
is a total function, so staging cannot raise. -/
theorem staging_idempotent (fs : FS) (f : UploadedFile) (q : String)
    (hf : f.stageFails = false) (hq : q ≠ stagePath f.name) :
    (process_images (process_images fs [f]).fs [f]).fs = (process_images fs [f]).fs ∧
    (process_images (process_images fs [f]).fs [f]).images = (process_images fs [f]).images ∧
    (process_images fs [f]).fs (stagePath f.name) = some f.content ∧
    (process_images fs [f]).fs q = fs q := by
  refine ⟨?_, by simp [process_images, hf], ?_, ?_⟩
  · funext p
    by_cases hp : p = stagePath f.name <;> simp [process_images, hf, writeTemp, hp]
  · simp [process_images, hf, writeTemp]
  · simp [process_images, hf, writeTemp, hq]

/-- C7 witness: staging a concrete file twice over the empty temp dir. -/
theorem staging_idempotent_witness :
    (process_images (process_images (fun _ => none) [⟨"a.png", [7, 7], false⟩]).fs
        [⟨"a.png", [7, 7], false⟩]).fs =
      (process_images (fun _ => none) [⟨"a.png", [7, 7], false⟩]).fs ∧
    (process_images (process_images (fun _ => none) [⟨"a.png", [7, 7], false⟩]).fs
        [⟨"a.png", [7, 7], false⟩]).images =
      (process_images (fun _ => none) [⟨"a.png", [7, 7], false⟩]).images ∧
    (process_images (fun _ => none) [⟨"a.png", [7, 7], false⟩]).fs
        (stagePath "a.png") = some [7, 7] ∧
    (process_images (fun _ => none) [⟨"a.png", [7, 7], false⟩]).fs "/tmp/other" = none :=
  staging_idempotent (fun _ => none) ⟨"a.png", [7, 7], false⟩ "/tmp/other" rfl (by decide)

/-- C9: `process_images` is total (never raises); it returns exactly one
image, wrapping the staged temp path, per successfully staged file, in
upload order, one log line per failed file, and on the empty (or absent)
file list it returns the empty result without touching the file system. -/
theorem process_images_shape (fs : FS) (files : List UploadedFile) :
    (process_images fs files).images =
      (files.filter (fun f => !f.stageFails)).map (fun f => stagePath f.name) ∧
    (process_images fs files).logs =
      (files.filter (fun f => f.stageFails)).map
        (fun f => "Error processing image " ++ f.name) ∧
    process_images fs [] = ⟨fs, [], []⟩ := by
  refine ⟨?_, ?_, rfl⟩ <;>
  · induction files generalizing fs with
    | nil => simp [process_images]
    | cons f rest ih =>
        cases hf : f.stageFails
        · simpa [process_images, hf] using ih (writeTemp fs f)
        · simpa [process_images, hf] using ih fs

/-- C10: `initialize_agents` always returns the four fixed agents or four
`None`s — a mixed tuple is impossible — and the caller's `all([...])`
truthiness check holds exactly in the first case. -/
theorem initialize_agents_all_or_nothing (e : Option String) :
    ((initialize_agents e).1 = (some therapist_agent, some closure_agent,
        some routine_planner_agent, some brutal_honesty_agent) ∨
      (initialize_agents e).1 = (none, none, none, none)) ∧
    (allPresent (initialize_agents e).1 = true ↔
      (initialize_agents e).1 = (some therapist_agent, some closure_agent,
        some routine_planner_agent, some brutal_honesty_agent)) := by
  cases e <;> simp [initialize_agents, allPresent]

/-- C1 counterexample: a session meeting the claim's stated validity
conditions (API key present, agent initialization succeeds, narrative
non-empty) in which the first persona call raises: only one model call
occurs, not four. -/
theorem four_calls_counterexample :
    (Env.mk "sk" none (fun _ => none)).api_key_input ≠ "" ∧
    (Env.mk "sk" none (fun _ => none)).initError = none ∧
    ("hi" ≠ "" ∨ ([] : List UploadedFile) ≠ []) ∧
    (modelCalls (runSubmit (Env.mk "sk" none (fun _ => none))
        (fun _ => none) "hi" []).2).length = 1 := by
  exact ⟨by decide, rfl, Or.inl (by decide), rfl⟩

/-- C1 (amended): for every session with the API key present, agent
initialization succeeding, narrative or attachments non-empty, and every
persona call returning normally, exactly four model calls occur, in the
fixed order support, closure, routine, reality-check, each invoked with its
persona-specific prompt and the shared attachment list. -/
theorem valid_session_four_calls (env : Env) (fs : FS) (u : String)
    (files : List UploadedFile) (hk : env.api_key_input ≠ "")
    (hi : env.initError = none) (hin : u ≠ "" ∨ files ≠ [])
    (hc : ∀ k, (env.callResult k).isSome) :
    modelCalls (runSubmit env fs u files).2 =
      expectedCalls u (process_images fs files).images := by
  obtain ⟨r0, h0⟩ := Option.isSome_iff_exists.mp (hc 0)
  obtain ⟨r1, h1⟩ := Option.isSome_iff_exists.mp (hc 1)
  obtain ⟨r2, h2⟩ := Option.isSome_iff_exists.mp (hc 2)
  obtain ⟨r3, h3⟩ := Option.isSome_iff_exists.mp (hc 3)
  simp [runSubmit, hk, hi, hin, initialize_agents, personaSequence,
    h0, h1, h2, h3, modelCalls, expectedCalls]

/-- C1 witness at a concrete fully successful session. -/
theorem valid_session_four_calls_witness :
    modelCalls (runSubmit ⟨"sk", none, fun _ => some "ok"⟩ (fun _ => none) "hi" []).2 =
      expectedCalls "hi" (process_images (fun _ => none) []).images :=
  valid_session_four_calls ⟨"sk", none, fun _ => some "ok"⟩ (fun _ => none) "hi" []
    (by decide) rfl (Or.inl (by decide)) (fun _ => rfl)

/-- C2: if the first persona call succeeds and the second raises, the trace
is exactly the header, the first call, the rendered first result, the second
call, and one generic error: the first result is already rendered when the
error is shown, personas three and four are never called, the failing call
is not retried, and no result is rendered for personas two to four. -/
theorem second_call_failure (env : Env) (fs : FS) (u : String)
    (files : List UploadedFile) (r1 : String) (hk : env.api_key_input ≠ "")
    (hi : env.initError = none) (hin : u ≠ "" ∨ files ≠ [])
    (h0 : env.callResult 0 = some r1) (h1 : env.callResult 1 = none) :
    (runSubmit env fs u files).2 =
      [Event.header journeyHeader,
       Event.modelCall therapist_agent (therapist_prompt u)
         (process_images fs files).images,
       Event.render "🤗 Emotional First Aid" r1,
       Event.modelCall closure_agent (closure_prompt u)
         (process_images fs files).images,
       Event.error analysisError] ∧
    modelCalls (runSubmit env fs u files).2 =
      [(therapist_agent, therapist_prompt u, (process_images fs files).images),
       (closure_agent, closure_prompt u, (process_images fs files).images)] ∧
    renders (runSubmit env fs u files).2 = [("🤗 Emotional First Aid", r1)] ∧
    errors (runSubmit env fs u files).2 = [analysisError] := by
  simp [runSubmit, hk, hi, hin, initialize_agents, personaSequence, h0, h1,
    modelCalls, renders, errors]

/-- C2 witness at a concrete session whose second call raises. -/
theorem second_call_failure_witness :
    (runSubmit ⟨"sk", none, fun k => if k = 0 then some "ok" else none⟩
        (fun _ => none) "hi" []).2 =
      [Event.header journeyHeader,
       Event.modelCall therapist_agent (therapist_prompt "hi")
         (process_images (fun _ => none) []).images,
       Event.render "🤗 Emotional First Aid" "ok",
       Event.modelCall closure_agent (closure_prompt "hi")
         (process_images (fun _ => none) []).images,
       Event.error analysisError] ∧
    modelCalls (runSubmit ⟨"sk", none, fun k => if k = 0 then some "ok" else none⟩
        (fun _ => none) "hi" []).2 =
      [(therapist_agent, therapist_prompt "hi", (process_images (fun _ => none) []).images),
       (closure_agent, closure_prompt "hi", (process_images (fun _ => none) []).images)] ∧
    renders (runSubmit ⟨"sk", none, fun k => if k = 0 then some "ok" else none⟩
        (fun _ => none) "hi" []).2 = [("🤗 Emotional First Aid", "ok")] ∧
    errors (runSubmit ⟨"sk", none, fun k => if k = 0 then some "ok" else none⟩
        (fun _ => none) "hi" []).2 = [analysisError] :=
  second_call_failure ⟨"sk", none, fun k => if k = 0 then some "ok" else none⟩
    (fun _ => none) "hi" [] "ok" (by decide) rfl (Or.inl (by decide)) rfl rfl

/-- C3 counterexample: a session with the API key present, initialization
succeeding, empty narrative and one attachment, in which the first persona
call raises: the session proceeds past the empty-input check but makes only
one model call, not four. -/
theorem image_only_counterexample :
    (Env.mk "sk" none (fun _ => none)).api_key_input ≠ "" ∧
    (Env.mk "sk" none (fun _ => none)).initError = none ∧
    (modelCalls (runSubmit (Env.mk "sk" none (fun _ => none)) (fun _ => none)
        "" [⟨"a.png", [7], false⟩]).2).length = 1 := by
  exact ⟨by decide, rfl, rfl⟩

/-- C3 (amended): given the API key is present and agent initialization
succeeds, zero model calls occur and the empty-input warning is shown if
and only if the narrative is empty and there are no attachments; and a
session with an empty narrative but at least one attachment proceeds past
the warning and makes all four calls provided every call returns normally. -/
theorem empty_input_iff (env : Env) (fs : FS) (u : String)
    (files : List UploadedFile) (hk : env.api_key_input ≠ "")
    (hi : env.initError = none) :
    ((modelCalls (runSubmit env fs u files).2 = [] ∧
        warns (runSubmit env fs u files).2 = [emptyInputWarning]) ↔
      (u = "" ∧ files = [])) ∧
    (u = "" → files ≠ [] → (∀ k, (env.callResult k).isSome) →
      modelCalls (runSubmit env fs u files).2 =
        expectedCalls "" (process_images fs files).images) := by
  constructor
  · by_cases hu : u = "" <;> by_cases hf : files = []
    · simp [runSubmit, hk, hi, hu, hf, initialize_agents, modelCalls, warns]
    · have hin : u ≠ "" ∨ files ≠ [] := Or.inr hf
      simp [runSubmit, hk, hi, hin, initialize_agents, personaSequence,
        modelCalls, hf]
    · have hin : u ≠ "" ∨ files ≠ [] := Or.inl hu
      simp [runSubmit, hk, hi, hin, initialize_agents, personaSequence,
        modelCalls, hu]
    · have hin : u ≠ "" ∨ files ≠ [] := Or.inl hu
      simp [runSubmit, hk, hi, hin, initialize_agents, personaSequence,
        modelCalls, hu]
  · intro hu hf hc
    subst hu
    exact valid_session_four_calls env fs "" files hk hi (Or.inr hf) hc

/-- C3 witness at a concrete session: non-empty narrative gives a non-empty
call list and no warning, and an image-only session with all calls
succeeding makes all four calls. -/
theorem empty_input_iff_witness :
    ((modelCalls (runSubmit ⟨"sk", none, fun _ => some "ok"⟩ (fun _ => none)
          "" [⟨"a.png", [7], false⟩]).2 = [] ∧
        warns (runSubmit ⟨"sk", none, fun _ => some "ok"⟩ (fun _ => none)
          "" [⟨"a.png", [7], false⟩]).2 = [emptyInputWarning]) ↔
      ("" = "" ∧ ([⟨"a.png", [7], false⟩] : List UploadedFile) = [])) ∧
    ("" = "" → ([⟨"a.png", [7], false⟩] : List UploadedFile) ≠ [] →
      (∀ k, ((Env.mk "sk" none (fun _ => some "ok")).callResult k).isSome) →
      modelCalls (runSubmit ⟨"sk", none, fun _ => some "ok"⟩ (fun _ => none)
          "" [⟨"a.png", [7], false⟩]).2 =
        expectedCalls "" (process_images (fun _ => none)
          [⟨"a.png", [7], false⟩]).images) :=
  empty_input_iff ⟨"sk", none, fun _ => some "ok"⟩ (fun _ => none)
    "" [⟨"a.png", [7], false⟩] (by decide) rfl

/-- C6: in every fully successful session with narrative
"We broke up after 3 years" and no attachments, each of the four persona
calls receives its persona's fixed template with the narrative interpolated
verbatim at its placeholder (fixed prefix, narrative, fixed suffix), and
each call is made with the empty image list. -/
theorem verbatim_interpolation (env : Env) (fs : FS)
    (hk : env.api_key_input ≠ "") (hi : env.initError = none)
    (hc : ∀ k, (env.callResult k).isSome) :
    modelCalls (runSubmit env fs "We broke up after 3 years" []).2 =
      [(therapist_agent,
        therapist_pre ++ "We broke up after 3 years" ++ therapist_post, []),
       (closure_agent,
        closure_pre ++ "We broke up after 3 years" ++ closure_post, []),
       (routine_planner_agent,
        routine_pre ++ "We broke up after 3 years" ++ routine_post, []),
       (brutal_honesty_agent,
        honesty_pre ++ "We broke up after 3 years" ++ honesty_post, [])] := by
  have h := valid_session_four_calls env fs "We broke up after 3 years" [] hk hi
    (Or.inl (by decide)) hc
  simpa [expectedCalls, process_images, therapist_prompt, closure_prompt,
    routine_prompt, honesty_prompt] using h

/-- C6 witness at a concrete fully successful session. -/
theorem verbatim_interpolation_witness :
    modelCalls (runSubmit ⟨"sk", none, fun _ => some "ok"⟩ (fun _ => none)
        "We broke up after 3 years" []).2 =
      [(therapist_agent,
        therapist_pre ++ "We broke up after 3 years" ++ therapist_post, []),
       (closure_agent,
        closure_pre ++ "We broke up after 3 years" ++ closure_post, []),
       (routine_planner_agent,
        routine_pre ++ "We broke up after 3 years" ++ routine_post, []),
       (brutal_honesty_agent,
        honesty_pre ++ "We broke up after 3 years" ++ honesty_post, [])] :=
  verbatim_interpolation ⟨"sk", none, fun _ => some "ok"⟩ (fun _ => none)
    (by decide) rfl (fun _ => rfl)

/-- C8: no cross-persona dependency: the persona configurations returned by
a successful `initialize_agents` are the fixed constants, and the sequence
of model calls a session issues is always a prefix of the fixed four-call
list determined by the shared narrative and image list alone — its length
depends on which call raises, but each issued call's agent, instructions
and prompt never depend on any earlier persona's response text. -/
theorem persona_independence (env : Env) (fs : FS) (u : String)
    (files : List UploadedFile) (hk : env.api_key_input ≠ "")
    (hi : env.initError = none) (hin : u ≠ "" ∨ files ≠ []) :
    initialize_agents none =
      ((some therapist_agent, some closure_agent, some routine_planner_agent,
        some brutal_honesty_agent), []) ∧
    modelCalls (runSubmit env fs u files).2 =
      (expectedCalls u (process_images fs files).images).take
        (numCalls env.callResult) := by
  refine ⟨rfl, ?_⟩
  rcases h0 : env.callResult 0 with _ | r0
  · simp [runSubmit, hk, hi, hin, initialize_agents, personaSequence, h0,
      modelCalls, numCalls, expectedCalls]
  · rcases h1 : env.callResult 1 with _ | r1
    · simp [runSubmit, hk, hi, hin, initialize_agents, personaSequence, h0, h1,
        modelCalls, numCalls, expectedCalls]
    · rcases h2 : env.callResult 2 with _ | r2
      · simp [runSubmit, hk, hi, hin, initialize_agents, personaSequence, h0, h1,
          h2, modelCalls, numCalls, expectedCalls]
      · rcases h3 : env.callResult 3 with _ | r3 <;>
          simp [runSubmit, hk, hi, hin, initialize_agents, personaSequence, h0,
            h1, h2, h3, modelCalls, numCalls, expectedCalls]

/-- C8 witness at a concrete session whose third call raises: the calls
issued are the first three entries of the fixed list. -/
theorem persona_independence_witness :
    initialize_agents none =
      ((some therapist_agent, some closure_agent, some routine_planner_agent,
        some brutal_honesty_agent), []) ∧
    modelCalls (runSubmit ⟨"sk", none, fun k => if k ≤ 1 then some "ok" else none⟩
        (fun _ => none) "hi" []).2 =
      (expectedCalls "hi" (process_images (fun _ => none) []).images).take
        (numCalls fun k => if k ≤ 1 then some "ok" else none) :=
  persona_independence ⟨"sk", none, fun k => if k ≤ 1 then some "ok" else none⟩
    (fun _ => none) "hi" [] (by decide) rfl (Or.inl (by decide))

end HeartHealer
